import Mathlib

/-!
# Verification of the moderation-scanner core (`account_scanner.py` and callers)

A shallow embedding of the scanning logic of `src/account_scanner.py`
(together with the call sites in `src/cogs/moderation.py` and
`src/discord_bot.py`), and theorems settling the specification claims
about it.

Python strings are modelled as Lean `String`; the handful of Python
`str` methods the code uses (`strip`, `split(sep, 1)`, `splitlines`,
`lower`, `startswith`, the `in` operator) are reproduced below on the
underlying character lists.  Floating-point scores and clock readings
are modelled as `ℚ`; API credentials as `Option String` with Python
truthiness.  Fallible operations return `Except`.
-/

namespace ModScanner

/-! ## Python string primitives -/

/-- Characters stripped by Python `str.strip()` with no argument
(the ASCII whitespace subset, which covers every input in this
development). -/
def isPyWS (c : Char) : Bool :=
  c == ' ' || c == '\t' || c == '\n' || c == '\r' || c == '\x0b' || c == '\x0c'

/-- Drop leading and trailing characters satisfying `p`. -/
def stripCL (p : Char → Bool) (l : List Char) : List Char :=
  ((l.dropWhile p).reverse.dropWhile p).reverse

/-- Python `s.strip()`. -/
def pyStrip (s : String) : String := ⟨stripCL isPyWS s.data⟩

/-- Python `s.strip(chars)`: strip leading/trailing characters drawn
from the set `cs`. -/
def pyStripChars (cs : List Char) (s : String) : String :=
  ⟨stripCL (fun c => cs.contains c) s.data⟩

/-- ASCII case folding of one character (Python `str.lower`, restricted
to the ASCII range that occurs in the code's marker strings). -/
def lowerChar (c : Char) : Char :=
  if 'A' ≤ c ∧ c ≤ 'Z' then Char.ofNat (c.toNat + 32) else c

/-- Python `s.lower()`. -/
def pyLower (s : String) : String := ⟨s.data.map lowerChar⟩

/-- Python `s.startswith(pat)`. -/
def pyStartswith (pat s : String) : Bool := pat.data.isPrefixOf s.data

/-- `containsCL pat l` is true iff `pat` occurs as a contiguous
sublist of `l`. -/
def containsCL (pat : List Char) : List Char → Bool
  | [] => pat.isPrefixOf []
  | c :: cs => pat.isPrefixOf (c :: cs) || containsCL pat cs

/-- Python `pat in s` (substring containment). -/
def pyContains (pat s : String) : Bool := containsCL pat.data s.data

/-- Split `l` at the first occurrence of `pat`, returning the parts
before and after it, or `none` when `pat` does not occur. -/
def splitFirst (pat : List Char) : List Char → Option (List Char × List Char)
  | [] => if pat.isPrefixOf ([] : List Char) then some ([], []) else none
  | c :: cs =>
    if pat.isPrefixOf (c :: cs) then some ([], (c :: cs).drop pat.length)
    else
      match splitFirst pat cs with
      | some (a, b) => some (c :: a, b)
      | none => none

/-- Python `s.split(sep, 1)`: one or two parts, splitting at the first
occurrence of `sep`. -/
def pySplit1 (sep s : String) : List String :=
  match splitFirst sep.data s.data with
  | some (a, b) => [String.mk a, String.mk b]
  | none => [s]

/-- Segments of `l` delimited by newline characters (always at least
one segment). -/
def splitSegs : List Char → List (List Char)
  | [] => [[]]
  | c :: cs =>
    if c = '\n' then [] :: splitSegs cs
    else
      match splitSegs cs with
      | [] => [[c]]
      | seg :: segs => (c :: seg) :: segs

/-- Python `s.splitlines()` for `\n`-separated text (the only line
separator occurring in this code's inputs): the empty string yields no
lines and a trailing newline does not produce a final empty line. -/
def pySplitlines (s : String) : List String :=
  if s.data = [] then []
  else
    let segs := (splitSegs s.data).map String.mk
    if s.data.getLast? = some '\n' then segs.dropLast else segs

/-- Python truthiness of an optional string (`None` and `""` are
falsy). -/
def truthyOpt : Option String → Bool
  | none => false
  | some s => !(s == "")

/-! ## Sherlock adapter (`SherlockScanner`, account_scanner.py 185-337) -/

/-- One record produced by `SherlockScanner._parse_stdout`: the dict
`{"platform": …, "url": …, "status": "Claimed", "response_time": None}`. -/
structure SherlockRecord where
  platform : String
  url : String
  status : String
  responseTime : Option ℚ
deriving DecidableEq, Repr

/-- The loop body of `SherlockScanner._parse_stdout`
(account_scanner.py 224-247), processing the remaining lines with the
`seen` set of `(platform.lower(), url)` keys accumulated so far.  The
string literals are exactly those of the source, including the
two-space `":  "` and `"]:  "` membership tests on lines 226 and 228. -/
def parseStdoutGo : List String → List (String × String) → List SherlockRecord
  | [], _ => []
  | l₀ :: rest, seen =>
    let line := pyStrip l₀
    if !(pyContains "://" line) || !(pyContains ":  " line) then
      parseStdoutGo rest seen
    else
      let line' := if pyContains "]:  " line then (pySplit1 "]: " line).getD 1 line else line
      match pySplit1 ": " line' with
      | [platform₀, url₀] =>
        let url := pyStrip url₀
        let platform := pyStripChars [' ', '+', '[', ']'] platform₀
        if !(pyStartswith "http" url) then parseStdoutGo rest seen
        else if (pyLower platform, url) ∈ seen then parseStdoutGo rest seen
        else
          { platform := platform, url := url, status := "Claimed", responseTime := none }
            :: parseStdoutGo rest ((pyLower platform, url) :: seen)
      | _ => parseStdoutGo rest seen

/-- `SherlockScanner._parse_stdout` (account_scanner.py 205-248). -/
def parseStdout (text : String) : List SherlockRecord :=
  parseStdoutGo (pySplitlines text) []

/-- The marker tuple `invalid` of `SherlockScanner._is_claimed`
(account_scanner.py 261). -/
def invalidMarkers : List String :=
  ["not", "available", "invalid", "unchecked", "unknown"]

/-- `SherlockScanner._is_claimed` (account_scanner.py 250-262):
`not any(x in s or s.startswith(x) for x in invalid)` on the lowercased
status. -/
def isClaimed (status : String) : Bool :=
  let s := pyLower status
  !(invalidMarkers.any (fun x => pyContains x s || pyStartswith x s))

/-- The subprocess argument list built by `SherlockScanner.scan`
(account_scanner.py 290-299): the raw username directly after the
program name, then the fixed flags, then `--output FILE` when an output
directory was supplied. -/
def buildSherlockCmd (username : String) (timeout : Nat) (outputFile : Option String) :
    List String :=
  ["sherlock", username, "--timeout", toString timeout, "--no-color", "--print-found"] ++
    (match outputFile with
     | some f => ["--output", f]
     | none => [])

/-- The output-file path `output_dir / f"{username}.txt"` built by
`SherlockScanner.scan` (account_scanner.py 298) from the raw username. -/
def sherlockOutputFile (outputDir username : String) : String :=
  outputDir ++ "/" ++ username ++ ".txt"

/-- The username sanitation of the bot layer,
`re.sub(r"[^\w\-]", "_", username)` (cogs/moderation.py 244,
discord_bot.py 157): every character outside word characters and
hyphen becomes an underscore.  `\w` is modelled by its ASCII core
`[A-Za-z0-9_]`. -/
def isWordChar (c : Char) : Bool := c.isAlphanum || c == '_'

def cogSanitize (username : String) : String :=
  ⟨username.data.map (fun c => if isWordChar c || c == '-' then c else '_')⟩

/-! ## Rate limiter (`RateLimiter`, account_scanner.py 145-182)

`wait()` reads `time.monotonic()`, compares against the shared
`last_call`, sleeps the residual delay, then stores a fresh clock
reading into `last_call`.  There is no lock: the `await asyncio.sleep`
between the read of `last_call` (line 179) and its update (line 182) is
a suspension point at which another task may run the same lines. -/

/-- The completion time of one `wait()` call that reads `last_call =
last` at clock time `now` (account_scanner.py 178-182): if less than
`delay` has elapsed it sleeps until `last + delay`, otherwise it
completes immediately; `last_call` is then set to this completion
time. -/
def waitCompletion (delay last now : ℚ) : ℚ :=
  if now - last < delay then last + delay else now

/-- Executions of two `wait()` calls against a shared `last_call`
initially holding `last`, ending with completion times `c₁` and `c₂`.

* `sequential`: the second call starts only after the first completed
  and wrote `last_call`, so it reads the first call's completion time.
* `overlapped`: the first call reads `last_call` at `r₁` and, having
  seen insufficient elapsed time, suspends in `asyncio.sleep` until
  `last + delay`; while it sleeps (at `r₂ < last + delay`) the second
  call runs lines 178-180 and reads the *unchanged* `last_call`.
  Nothing in the code prevents this interleaving — `wait()` takes no
  lock — and both calls then complete from the same `last` value. -/
inductive TwoWaitExec (delay last : ℚ) : ℚ → ℚ → Prop where
  | sequential (r₁ r₂ : ℚ) (h₁ : last ≤ r₁) (h₂ : waitCompletion delay last r₁ ≤ r₂) :
      TwoWaitExec delay last (waitCompletion delay last r₁)
        (waitCompletion delay (waitCompletion delay last r₁) r₂)
  | overlapped (r₁ r₂ : ℚ) (h₁ : last ≤ r₁) (hsleep : r₁ - last < delay)
      (hord : r₁ ≤ r₂) (hwin : r₂ - last < delay) :
      TwoWaitExec delay last (last + delay) (waitCompletion delay last r₂)

/-! ## Exception discipline (account_scanner.py 300-337 and 389-412)

Python exception classes are modelled by the kinds the code can
encounter.  `asyncio.CancelledError` derives from `BaseException`
directly (Python ≥ 3.8), so a bare `except Exception` clause does not
catch it. -/

inductive PyExc where
  | cancelled
  | timedOut
  | osError
  | netError
  | parseError
deriving DecidableEq, Repr

/-- Whether `except Exception` catches the raised class: everything the
code anticipates does derive from `Exception`; `CancelledError` does
not. -/
def catchesException : PyExc → Bool
  | .cancelled => false
  | _ => true

/-- How the body of `SherlockScanner.scan`'s outer `try` block ends
(account_scanner.py 300-331):

* `completed stdout` — `proc.communicate()` returned within the
  `wait_for` bound;
* `innerTimeout` — `asyncio.wait_for` raised `TimeoutError`, which the
  inner `except` converts to `stdout = b""` (lines 311-315);
* `raised e` — an exception escaped the inner handling (a launch error
  from `create_subprocess_exec`, or a cancellation delivered at any
  `await` point). -/
inductive SubprocOutcome where
  | completed (stdout : String)
  | innerTimeout
  | raised (e : PyExc)
deriving DecidableEq, Repr

/-- The value/exception behaviour of `SherlockScanner.scan`
(account_scanner.py 300-337): results are parsed from stdout when it is
non-empty; the outer `except Exception` converts anticipated failures
to `[]`; anything it does not catch propagates. -/
def sherlockScanResult (out : SubprocOutcome) : Except PyExc (List SherlockRecord) :=
  match out with
  | .completed stdout => .ok (if stdout ≠ "" then parseStdout stdout else [])
  | .innerTimeout => .ok []
  | .raised e => if catchesException e then .ok [] else .error e

/-- The result records of one `SherlockScanner.scan` run as a function
of the captured stdout and of the contents of the structured result
file the tool was told to write via `--output` (account_scanner.py
296-331).  The source derives its records from stdout alone; the
`--output` file is passed to the subprocess but never read back, so the
second argument is unused. -/
def sherlockScanRecords (stdout : String)
    (_resultFile : Option (List (String × String × String))) : List SherlockRecord :=
  if stdout ≠ "" then parseStdout stdout else []

/-- Modelled from the spec (§4.3 output parsing, for comparison with
`sherlockScanRecords`): "prefer a structured (machine-readable) result
file if the tool is configured to emit one; otherwise parse free-text
lines", keeping a structured entry `(platform, url, status)` only when
its status is classified claimed by `_is_claimed`. -/
def sherlockSpecPriorityCollect (resultFile : Option (List (String × String × String)))
    (stdout : String) : List SherlockRecord :=
  match resultFile with
  | some entries =>
    (entries.filter (fun e => isClaimed e.2.2)).map
      (fun e => { platform := e.1, url := e.2.1, status := e.2.2, responseTime := none })
  | none => parseStdout stdout

/-- How the classification attempt of `RedditScanner._check_toxicity`
ends once the text was non-empty (account_scanner.py 391-412):

* `response status scores` — the POST returned with the given status
  code and (for 200) the extracted `summaryScore` values;
* `raised e` — an exception: a transport or parse error inside the
  `try` block, or a cancellation delivered at `limiter.wait()` or
  `client.post`. -/
inductive ToxOutcome where
  | response (status : Nat) (scores : List (String × ℚ))
  | raised (e : PyExc)
deriving DecidableEq, Repr

/-- `RedditScanner._check_toxicity` (account_scanner.py 364-412):
empty/whitespace text short-circuits to `{}` before any await; a 200
response yields the score mapping; a non-200 response falls through to
`{}`; `except Exception: pass` swallows anticipated errors into `{}`;
anything it does not catch propagates. -/
def checkToxicityResult (text : String) (out : ToxOutcome) :
    Except PyExc (List (String × ℚ)) :=
  if pyStrip text = "" then .ok []
  else
    match out with
    | .response status scores => if status == 200 then .ok scores else .ok []
    | .raised e => if catchesException e then .ok [] else .error e

/-! ## Reddit content pipeline (`RedditScanner.scan`, account_scanner.py 460-526) -/

/-- One fetched item, the tuple
`(type, subreddit, content, created_utc)` produced by `_fetch_items`
(account_scanner.py 414-458). -/
structure ContentItem where
  kind : String
  subreddit : String
  body : String
  createdUtc : ℚ
deriving DecidableEq, Repr

/-- The score mapping returned by `_check_toxicity` for one item. -/
abbrev ScoreMap := List (String × ℚ)

/-- One flagged dict appended on account_scanner.py 501-507.  The
`timestamp` field keeps the raw epoch value whose `time.strftime`
rendering (line 502) is environment-dependent. -/
structure FlaggedRow where
  timestamp : ℚ
  kind : String
  subreddit : String
  content : String
  scores : ScoreMap
deriving DecidableEq, Repr

/-- The classification-and-filter stage of `RedditScanner.scan`
(account_scanner.py 493-507): each item's *untruncated* body is sent to
the classifier (the `gather` on lines 493-496 passes `text` verbatim),
and an item is kept iff some returned score reaches the threshold, its
stored content being the body cut to the first 500 characters
(`text[:500]`, line 505). -/
def redditScanFlagged (threshold : ℚ) (classify : String → ScoreMap)
    (items : List ContentItem) : List FlaggedRow :=
  let results := items.map (fun it => classify it.body)
  (items.zip results).filterMap fun p =>
    if p.2.any (fun kv => threshold ≤ kv.2) then
      some { timestamp := p.1.createdUtc, kind := p.1.kind, subreddit := p.1.subreddit,
             content := ⟨p.1.body.data.take 500⟩, scores := p.2 }
    else none

/-! ## Orchestrator (`ScannerAPI.scan_user`, account_scanner.py 539-610)

The returned Python dict is modelled as an association list so that its
key set is an observable of the embedding, with a tagged value type for
the shapes the code actually stores. -/

inductive RVal where
  | nil
  | str (s : String)
  | strs (es : List String)
  | sherlock (xs : List SherlockRecord)
  | reddit (xs : List FlaggedRow)
deriving DecidableEq, Repr

abbrev ScanDict := List (String × RVal)

/-- Python `d[k]` (for present keys), as an `Option`. -/
def lookupD (d : ScanDict) (k : String) : Option RVal :=
  (d.find? (fun kv => kv.1 == k)).map (·.2)

/-- Python `d[k] = v`: replace the value at `k` in place, appending a
new entry when `k` is absent. -/
def dictSet (d : ScanDict) (k : String) (v : RVal) : ScanDict :=
  if d.any (fun kv => kv.1 == k) then
    d.map (fun kv => if kv.1 == k then (k, v) else kv)
  else d ++ [(k, v)]

/-- The current `results["errors"]` list. -/
def getErrs (d : ScanDict) : List String :=
  match lookupD d "errors" with
  | some (.strs es) => es
  | _ => []

/-- Python `results["errors"].append(e)`. -/
def pushErr (d : ScanDict) (e : String) : ScanDict :=
  dictSet d "errors" (.strs (getErrs d ++ [e]))

/-- Condition for appending the sherlock task (account_scanner.py
588-589): mode requests it and the tool is on PATH. -/
def eligSherlock (mode : String) (avail : Bool) : Bool :=
  (mode == "sherlock" || mode == "both") && avail

/-- `all((config.api_key, config.client_id, config.client_secret))`
(account_scanner.py 596) under Python truthiness. -/
def credsPresent (ak ci cs : Option String) : Bool :=
  truthyOpt ak && truthyOpt ci && truthyOpt cs

/-- Condition for appending the reddit task (account_scanner.py
595-596). -/
def eligReddit (mode : String) (ak ci cs : Option String) : Bool :=
  (mode == "reddit" || mode == "both") && credsPresent ak ci cs

/-- The labels of the tasks `scan_user` starts, in append order
(account_scanner.py 587-598). -/
def scanUserTasks (mode : String) (avail : Bool) (ak ci cs : Option String) : List String :=
  (if eligSherlock mode avail then ["sherlock"] else []) ++
    (if eligReddit mode ak ci cs then ["reddit"] else [])

/-- The error string `f"{scan_type} failed: {result}"`
(account_scanner.py 607). -/
def failMsg (label msg : String) : String := label ++ " failed: " ++ msg

/-- Processing of one gathered task result (account_scanner.py
605-609): an exception value becomes an error string, anything else is
stored under the task's key. -/
def applyOutcome (d : ScanDict) (label : String) (out : Except String RVal) : ScanDict :=
  match out with
  | .error m => pushErr d (failMsg label m)
  | .ok v => dictSet d label v

/-- The value `RedditScanner.scan` hands back through `gather`:
`None` when nothing was fetched, else the flagged list. -/
def redditRVal : Option (List FlaggedRow) → RVal
  | none => .nil
  | some xs => .reddit xs

/-- `ScannerAPI.scan_user` (account_scanner.py 539-610).  `username`
and the relevant configuration fields are passed explicitly; `avail` is
`SherlockScanner.available()`; `shOut`/`rdOut` are the outcomes of the
two sub-scan coroutines under `gather(…, return_exceptions=True)`, an
`Except.error` carrying `str(exception)`.  The function consults no
state beyond its arguments — the source defines no cache — and builds
the result dict exactly as lines 581-610 do. -/
def scanUser (username mode : String) (ak ci cs : Option String) (avail : Bool)
    (shOut : Except String (List SherlockRecord))
    (rdOut : Except String (Option (List FlaggedRow))) : ScanDict :=
  let d₀ : ScanDict :=
    [("username", .str username), ("sherlock", .nil), ("reddit", .nil), ("errors", .strs [])]
  let d₁ :=
    if mode == "sherlock" || mode == "both" then
      if avail then d₀ else pushErr d₀ "Sherlock not installed"
    else d₀
  let d₂ :=
    if mode == "reddit" || mode == "both" then
      if credsPresent ak ci cs then d₁
      else if mode == "reddit" then pushErr d₁ "Reddit mode requires API credentials"
      else d₁
    else d₁
  if scanUserTasks mode avail ak ci cs = [] then
    pushErr d₂ "No valid scan modes configured"
  else
    let d₃ :=
      if eligSherlock mode avail then applyOutcome d₂ "sherlock" (shOut.map RVal.sherlock)
      else d₂
    let d₄ :=
      if eligReddit mode ak ci cs then applyOutcome d₃ "reddit" (rdOut.map redditRVal)
      else d₃
    d₄

/-! ## Configuration surface (`ScanConfig`, account_scanner.py 82-136,
and its bot-layer call sites) -/

/-- The field names of the `ScanConfig` dataclass (account_scanner.py
120-136); these are exactly the keyword arguments its generated
`__init__` accepts. -/
def scanConfigFields : List String :=
  ["username", "mode", "api_key", "client_id", "client_secret", "user_agent",
   "comments", "posts", "threshold", "rate_per_min", "sherlock_timeout",
   "output_reddit", "output_sherlock", "verbose"]

/-- The keyword arguments of the `ScanConfig(...)` call in
`ModerationCog.scan` (cogs/moderation.py 255-266); the identical call
appears twice in discord_bot.py (lines 169-180 and 487-498). -/
def cogScanConfigKwargs : List String :=
  ["username", "mode", "api_key", "client_id", "client_secret", "user_agent",
   "limiter", "output_reddit", "output_sherlock", "verbose"]

/-- A dataclass `__init__` accepts a keyword-argument list iff every
name is a declared field. -/
def dataclassInitAccepts (kwargs : List String) : Bool :=
  kwargs.all (fun k => scanConfigFields.contains k)

/-- The limiter state `RateLimiter(rate_per_min)` (account_scanner.py
163-170): `delay = 60.0 / rate_per_min`, `last_call = 0.0`. -/
structure RateLimiterState where
  delay : ℚ
  lastCall : ℚ
deriving DecidableEq, Repr

/-- `RedditScanner.__init__` (account_scanner.py 355-362) always
constructs a fresh private limiter from `config.rate_per_min`; no
caller-supplied limiter is consulted. -/
def redditScannerLimiter (ratePerMin : ℚ) : RateLimiterState :=
  { delay := 60 / ratePerMin, lastCall := 0 }

/-- Shape observables of the result dict, for the bundle-shape
theorems. -/
def isStrsVal : Option RVal → Bool
  | some (.strs _) => true
  | _ => false

def isNilOrSherlock : Option RVal → Bool
  | some .nil => true
  | some (.sherlock _) => true
  | _ => false

def isNilOrReddit : Option RVal → Bool
  | some .nil => true
  | some (.reddit _) => true
  | _ => false

/-! ## Helper lemmas -/

/-- A `wait()` completion is always at least `delay` after the
`last_call` value it read. -/
theorem waitCompletion_spacing (d c r : ℚ) : d ≤ waitCompletion d c r - c := by
  unfold waitCompletion
  split
  · linarith
  · next h => linarith [not_lt.mp h]

theorem pyContains_of_startswith (p s : String) (h : pyStartswith p s = true) :
    pyContains p s = true := by
  unfold pyStartswith at h
  unfold pyContains
  rcases hdl : s.data with _ | ⟨c, cs⟩
  · rw [hdl] at h
    simpa [containsCL] using h
  · rw [hdl] at h
    simp [containsCL, h]

theorem contains_or_startswith (p s : String) :
    (pyContains p s || pyStartswith p s) = pyContains p s := by
  cases h : pyStartswith p s
  · simp
  · simp [pyContains_of_startswith p s h]

@[simp] theorem failMsgS_ne_notInstalled (m : String) :
    ¬(failMsg "sherlock" m = "Sherlock not installed") := by
  obtain ⟨md⟩ := m
  intro h
  have h3 : ("Sherlock not installed").data.head? = some 's' := by rw [← h]; rfl
  exact absurd h3 (by decide)

@[simp] theorem notInstalled_ne_failMsgS (m : String) :
    ¬("Sherlock not installed" = failMsg "sherlock" m) :=
  fun h => failMsgS_ne_notInstalled m h.symm

@[simp] theorem failMsgR_ne_notInstalled (m : String) :
    ¬(failMsg "reddit" m = "Sherlock not installed") := by
  obtain ⟨md⟩ := m
  intro h
  have h3 : ("Sherlock not installed").data.head? = some 'r' := by rw [← h]; rfl
  exact absurd h3 (by decide)

@[simp] theorem notInstalled_ne_failMsgR (m : String) :
    ¬("Sherlock not installed" = failMsg "reddit" m) :=
  fun h => failMsgR_ne_notInstalled m h.symm

@[simp] theorem failMsgS_ne_redditCreds (m : String) :
    ¬(failMsg "sherlock" m = "Reddit mode requires API credentials") := by
  obtain ⟨md⟩ := m
  intro h
  have h3 : ("Reddit mode requires API credentials").data.head? = some 's' := by rw [← h]; rfl
  exact absurd h3 (by decide)

@[simp] theorem redditCreds_ne_failMsgS (m : String) :
    ¬("Reddit mode requires API credentials" = failMsg "sherlock" m) :=
  fun h => failMsgS_ne_redditCreds m h.symm

@[simp] theorem failMsgR_ne_redditCreds (m : String) :
    ¬(failMsg "reddit" m = "Reddit mode requires API credentials") := by
  obtain ⟨md⟩ := m
  intro h
  have h3 : ("Reddit mode requires API credentials").data.head? = some 'r' := by rw [← h]; rfl
  exact absurd h3 (by decide)

@[simp] theorem redditCreds_ne_failMsgR (m : String) :
    ¬("Reddit mode requires API credentials" = failMsg "reddit" m) :=
  fun h => failMsgR_ne_redditCreds m h.symm

/-- The filter stage of `RedditScanner.scan` as a per-item map:
pairing the items with their classification results by position and
filtering is the same as deciding each item on the scores of its own
(untruncated) body. -/
theorem redditScanFlagged_eq (thr : ℚ) (classify : String → ScoreMap)
    (items : List ContentItem) :
    redditScanFlagged thr classify items =
      items.filterMap (fun it =>
        if (classify it.body).any (fun kv => thr ≤ kv.2) then
          some { timestamp := it.createdUtc, kind := it.kind, subreddit := it.subreddit,
                 content := ⟨it.body.data.take 500⟩, scores := classify it.body }
        else none) := by
  induction items with
  | nil => rfl
  | cons it its ih =>
    simp only [redditScanFlagged, List.map_cons, List.zip_cons_cons, List.filterMap_cons] at ih ⊢
    rw [ih]

/-! ## Claim theorems -/

/-- **C1** (code bug).  On the free-text enumeration output consisting
of the lines `[+] GitHub: https://github.com/test`,
`[+] Twitter: https://twitter.com/test`, `[-] Facebook: Not Found`,
`SherlockScanner._parse_stdout` is claimed (by the spec and by the
repository's own `test_sherlock_parse_stdout`) to return two records
for GitHub and Twitter.  The code returns the empty list instead: the
guard on account_scanner.py line 226 requires the substring `":  "`
(colon followed by two spaces), which no line of the input contains, so
every line is skipped. -/
theorem c1_parse_stdout_empty_on_claimed_input :
    parseStdout ("[+] GitHub: https://github.com/test\n" ++
      "[+] Twitter: https://twitter.com/test\n" ++
      "[-] Facebook: Not Found") = [] := by decide

/-- **C4** (counterexample).  The claim that no two `wait()`
completions across concurrent callers ever occur closer than
`60 / rate_per_minute` seconds is false: with `rate_per_minute = 60`
and `last_call = 0`, two callers that both execute the read of
`last_call` before either has written it back (possible because
`wait()` holds no lock across its `asyncio.sleep`) both complete at
time 1 — separation 0, less than the required 60/60. -/
theorem c4_counterexample :
    TwoWaitExec ((60 : ℚ) / 60) 0 1 1 ∧ ¬((60 : ℚ) / 60 ≤ |(1 : ℚ) - 1|) := by
  constructor
  · have h := @TwoWaitExec.overlapped ((60 : ℚ) / 60) 0 0 0
      (le_refl 0) (by norm_num) (le_refl 0) (by norm_num)
    have h1 : (0 : ℚ) + 60 / 60 = 1 := by norm_num
    have h2 : waitCompletion ((60 : ℚ) / 60) 0 0 = 1 := by norm_num [waitCompletion]
    rwa [h1, h2] at h
  · norm_num

/-- **C4** (amended).  For every `rate_per_minute > 0`, two `wait()`
completions produced *sequentially* — the second call reading the
`last_call` value the first one wrote — are separated by at least
`60 / rate_per_minute` seconds.  (The unlocked concurrent case fails,
see the counterexample.) -/
theorem c4_sequential_spacing (rpm last r₁ r₂ : ℚ) (hrpm : 0 < rpm)
    (hseq : waitCompletion (60 / rpm) last r₁ ≤ r₂) :
    60 / rpm ≤
      waitCompletion (60 / rpm) (waitCompletion (60 / rpm) last r₁) r₂ -
        waitCompletion (60 / rpm) last r₁ :=
  waitCompletion_spacing (60 / rpm) (waitCompletion (60 / rpm) last r₁) r₂

/-- Witness for `c4_sequential_spacing` at `rate_per_minute = 60`,
`last_call = 0`, reads at times 0 and 1. -/
theorem c4_witness :
    (0 : ℚ) < 60 ∧ waitCompletion ((60 : ℚ) / 60) 0 0 ≤ 1 ∧
      (60 : ℚ) / 60 ≤
        waitCompletion ((60 : ℚ) / 60) (waitCompletion ((60 : ℚ) / 60) 0 0) 1 -
          waitCompletion ((60 : ℚ) / 60) 0 0 :=
  ⟨by norm_num, by norm_num [waitCompletion],
    c4_sequential_spacing 60 0 0 1 (by norm_num) (by norm_num [waitCompletion])⟩

/-- **C5** (confirmed).  An item is flagged iff at least one of its
classification scores reaches the threshold (in particular an empty
score mapping never flags), the stored `content` is the body truncated
to its first 500 characters, and the classification itself receives the
untruncated body (`classify it.body` on the right-hand side). -/
theorem c5_threshold_and_truncation (thr : ℚ) (classify : String → ScoreMap)
    (items : List ContentItem) :
    redditScanFlagged thr classify items =
      items.filterMap (fun it =>
        if (classify it.body).any (fun kv => thr ≤ kv.2) then
          some { timestamp := it.createdUtc, kind := it.kind, subreddit := it.subreddit,
                 content := ⟨it.body.data.take 500⟩, scores := classify it.body }
        else none) ∧
    redditScanFlagged thr (fun _ => []) items = [] := by
  refine ⟨redditScanFlagged_eq thr classify items, ?_⟩
  rw [redditScanFlagged_eq]
  simp

/-- **C6** (confirmed).  Cancellation propagates out of
`SherlockScanner.scan` and `RedditScanner._check_toxicity` (their
`except Exception` clauses do not catch `CancelledError`), while every
anticipated failure is swallowed into an empty result. -/
theorem c6_cancellation_propagates :
    sherlockScanResult (.raised .cancelled) = .error .cancelled ∧
    (∀ e, e ≠ PyExc.cancelled → sherlockScanResult (.raised e) = .ok []) ∧
    (∀ text, pyStrip text ≠ "" →
      checkToxicityResult text (.raised .cancelled) = .error .cancelled) ∧
    (∀ text e, e ≠ PyExc.cancelled → checkToxicityResult text (.raised e) = .ok []) := by
  refine ⟨rfl, ?_, ?_, ?_⟩
  · intro e he
    cases e <;> simp_all [sherlockScanResult, catchesException]
  · intro t ht
    simp [checkToxicityResult, ht, catchesException]
  · intro t e he
    by_cases h : pyStrip t = "" <;> cases e <;>
      simp_all [checkToxicityResult, catchesException]

/-- Witness for `c6_cancellation_propagates`. -/
theorem c6_witness :
    pyStrip "hello" ≠ "" ∧
      checkToxicityResult "hello" (.raised .cancelled) = .error .cancelled ∧
      sherlockScanResult (.raised .netError) = .ok [] :=
  ⟨by decide, c6_cancellation_propagates.2.2.1 "hello" (by decide),
    c6_cancellation_propagates.2.1 .netError (by decide)⟩

/-- **C7** (counterexample).  The claim that the subprocess argument
list places an explicit `--` separator before the identity, and that
the identity is sanitized before use in paths and arguments, is false:
for the identity `-u` the built command contains no `--` element at all
and passes the raw identity directly after the program name (where it
is read as a flag), and the adapter's output-file path embeds an
unsanitized identity verbatim. -/
theorem c7_counterexample :
    buildSherlockCmd "-u" 60 none =
      ["sherlock", "-u", "--timeout", "60", "--no-color", "--print-found"] ∧
    "--" ∉ buildSherlockCmd "-u" 60 none ∧
    sherlockOutputFile "scans" "../evil" = "scans/../evil.txt" := by
  refine ⟨by decide, by decide, by decide⟩

/-- **C7** (amended).  No argument-list separator is passed: the raw
identity is always the element directly after the program name, and the
adapter's own output-file path uses the raw identity; only the bot
layer sanitizes the username — replacing everything outside word
characters and hyphen — and only for its own report file names. -/
theorem c7_amended (username : String) (timeout : Nat) (outputFile : Option String)
    (d : String) :
    (buildSherlockCmd username timeout outputFile).take 2 = ["sherlock", username] ∧
    (∀ c ∈ (cogSanitize username).data, isWordChar c = true ∨ c = '-') ∧
    sherlockOutputFile d username = d ++ "/" ++ username ++ ".txt" := by
  refine ⟨rfl, ?_, rfl⟩
  intro c hc
  simp only [cogSanitize, List.mem_map] at hc
  obtain ⟨a, _, rfl⟩ := hc
  by_cases h : (isWordChar a || a == '-') = true
  · rw [if_pos h]
    rcases Bool.or_eq_true_iff.mp h with h' | h'
    · exact Or.inl h'
    · exact Or.inr (by simpa using h')
  · rw [if_neg h]
    exact Or.inl (by decide)

/-- Witness for `c7_amended` at username `x!` (sanitized to `x_`). -/
theorem c7_witness :
    '_' ∈ (cogSanitize "x!").data ∧ (isWordChar '_' = true ∨ '_' = '-') :=
  ⟨by decide, (c7_amended "x!" 60 none "scans").2.1 '_' (by decide)⟩

/-- A structured result-file entry used by the C8 counterexample. -/
def c8Entry : String × String × String := ("GitHub", "https://github.com/test", "Claimed")

/-- **C8** (counterexample).  The claim that the adapter first reads
the structured result file and falls back to stdout only when no such
file is available is false: the code parses stdout unconditionally and
never reads the file it asked the tool to write.  With empty stdout and
a structured file holding one claimed GitHub entry, the claimed
behaviour produces that record while the code produces nothing. -/
theorem c8_counterexample :
    sherlockScanRecords "" (some [c8Entry]) = [] ∧
    sherlockSpecPriorityCollect (some [c8Entry]) "" =
      [{ platform := "GitHub", url := "https://github.com/test", status := "Claimed",
         responseTime := none }] ∧
    sherlockScanRecords "" (some [c8Entry]) ≠ sherlockSpecPriorityCollect (some [c8Entry]) "" := by
  refine ⟨by decide, by decide, by decide⟩

/-- **C8** (amended).  The adapter's records are a function of stdout
alone — the structured result file never influences them — and the
(never invoked) helper `_is_claimed` classifies a status as claimed iff
its lowercased form contains none of the five negative markers (the
`startswith` disjunct of the source is subsumed by containment). -/
theorem c8_amended :
    (∀ stdout f₁ f₂, sherlockScanRecords stdout f₁ = sherlockScanRecords stdout f₂) ∧
    (∀ status, isClaimed status =
      !(invalidMarkers.any (fun m => pyContains m (pyLower status)))) := by
  refine ⟨fun _ _ _ => rfl, ?_⟩
  intro st
  simp only [isClaimed, contains_or_startswith]

/-- **C9** (code bug).  The bot layer constructs `ScanConfig(...,
limiter=GLOBAL_LIMITER, ...)` (cogs/moderation.py 255-266,
discord_bot.py 169-180 and 487-498), but the `ScanConfig` dataclass
declares no `limiter` field, so that call raises `TypeError`; and
`RedditScanner.__init__` always builds a fresh private limiter from
`config.rate_per_min`, so no shared limiter could reach the classifier
client. -/
theorem c9_scanconfig_rejects_limiter :
    dataclassInitAccepts cogScanConfigKwargs = false ∧
    scanConfigFields.contains "limiter" = false ∧
    cogScanConfigKwargs.contains "limiter" = true ∧
    redditScannerLimiter 60 = { delay := 1, lastCall := 0 } := by
  refine ⟨by decide, by decide, by decide, by norm_num [redditScannerLimiter]⟩

/-- The enumeration record used by the C2 counterexample. -/
def c2Rec : SherlockRecord :=
  { platform := "GitHub", url := "https://github.com/alice", status := "Claimed",
    responseTime := none }

/-- **C2** (counterexample).  The claim that `scan_user` consults a
shared result cache — returning the cached bundle of a scan of the same
`(identity, mode)` key made under 15 minutes earlier without running
any sub-scan — is false: `scan_user` keeps no state between calls, so a
second call with the same key still runs the enumeration sub-scan and
its bundle tracks that fresh run.  Concretely, two back-to-back calls
for `("alice", "sherlock")` whose enumeration runs return different
account lists yield different bundles, the later one carrying the later
run's fresh result instead of any cached bundle. -/
theorem c2_counterexample :
    lookupD (scanUser "alice" "sherlock" none none none true (.ok [c2Rec]) (.ok none))
        "sherlock" = some (.sherlock [c2Rec]) ∧
    scanUser "alice" "sherlock" none none none true (.ok [c2Rec]) (.ok none) ≠
      scanUser "alice" "sherlock" none none none true (.ok []) (.ok none) := by
  refine ⟨by decide, by decide⟩

set_option maxHeartbeats 1000000 in
/-- **C2** (amended).  `ScannerAPI.scan_user` maintains no result
cache: it computes no cache key and consults no shared store, and on
every call in which the enumeration sub-scan is eligible the returned
bundle carries that call's freshly produced enumeration result. -/
theorem c2_no_cache_fresh_results (u mode : String) (ak ci cs : Option String)
    (avail : Bool) (xs : List SherlockRecord)
    (rdOut : Except String (Option (List FlaggedRow)))
    (h : eligSherlock mode avail = true) :
    lookupD (scanUser u mode ak ci cs avail (.ok xs) rdOut) "sherlock" =
      some (.sherlock xs) := by
  by_cases h1 : mode = "sherlock" <;> by_cases h2 : mode = "both" <;>
    by_cases h3 : mode = "reddit" <;>
    cases avail <;> cases hc : credsPresent ak ci cs <;>
    rcases rdOut with m | (_ | ys) <;>
    simp_all [scanUser, scanUserTasks, eligSherlock, eligReddit, applyOutcome, pushErr,
      dictSet, getErrs, lookupD, redditRVal, Except.map]

/-- Witness for `c2_no_cache_fresh_results`. -/
theorem c2_witness :
    eligSherlock "sherlock" true = true ∧
      lookupD (scanUser "bob" "sherlock" none none none true (.ok [c2Rec]) (.ok none))
        "sherlock" = some (.sherlock [c2Rec]) :=
  ⟨by decide,
    c2_no_cache_fresh_results "bob" "sherlock" none none none true [c2Rec] (.ok none)
      (by decide)⟩

set_option maxHeartbeats 1000000 in
/-- **C3** (confirmed).  `scan_user` starts the enumeration sub-scan
iff mode is `"sherlock"` or `"both"` and the tool is available,
appending `"Sherlock not installed"` exactly when the mode requests it
but it is unavailable; starts the content sub-scan iff mode is
`"reddit"` or `"both"` and all three credentials are present (truthy),
appending the credentials error only when mode is exactly `"reddit"`;
and when no sub-scan is eligible it appends
`"No valid scan modes configured"` and returns with both result fields
still `None`. -/
theorem c3_mode_eligibility (u mode : String) (ak ci cs : Option String) (avail : Bool)
    (shOut : Except String (List SherlockRecord))
    (rdOut : Except String (Option (List FlaggedRow))) :
    ("sherlock" ∈ scanUserTasks mode avail ak ci cs ↔
      (mode = "sherlock" ∨ mode = "both") ∧ avail = true) ∧
    ("Sherlock not installed" ∈ getErrs (scanUser u mode ak ci cs avail shOut rdOut) ↔
      (mode = "sherlock" ∨ mode = "both") ∧ avail = false) ∧
    ("reddit" ∈ scanUserTasks mode avail ak ci cs ↔
      (mode = "reddit" ∨ mode = "both") ∧ credsPresent ak ci cs = true) ∧
    ("Reddit mode requires API credentials" ∈
        getErrs (scanUser u mode ak ci cs avail shOut rdOut) ↔
      mode = "reddit" ∧ credsPresent ak ci cs = false) ∧
    (scanUserTasks mode avail ak ci cs = [] →
      "No valid scan modes configured" ∈ getErrs (scanUser u mode ak ci cs avail shOut rdOut) ∧
      lookupD (scanUser u mode ak ci cs avail shOut rdOut) "sherlock" = some .nil ∧
      lookupD (scanUser u mode ak ci cs avail shOut rdOut) "reddit" = some .nil) := by
  by_cases h1 : mode = "sherlock" <;> by_cases h2 : mode = "both" <;>
    by_cases h3 : mode = "reddit" <;>
    cases avail <;> cases hc : credsPresent ak ci cs <;> cases shOut <;>
    rcases rdOut with m | (_ | xs) <;>
    simp_all [scanUser, scanUserTasks, eligSherlock, eligReddit, applyOutcome, pushErr,
      dictSet, getErrs, lookupD, redditRVal, Except.map]

/-- Witness for `c3_mode_eligibility`: an unknown mode starts no task,
and the no-eligible-sub-scan error is appended. -/
theorem c3_witness :
    scanUserTasks "x" true none none none = [] ∧
      "No valid scan modes configured" ∈
        getErrs (scanUser "alice" "x" none none none true (.ok []) (.ok none)) :=
  ⟨by decide,
    ((c3_mode_eligibility "alice" "x" none none none true (.ok []) (.ok none)).2.2.2.2
      (by decide)).1⟩

set_option maxHeartbeats 1000000 in
/-- **C10** (confirmed).  On every return path, `scan_user` yields a
dict with exactly the keys `username`, `sherlock`, `reddit`, `errors`
in that order; `username` holds the username argument verbatim;
`errors` always holds a list of strings; and `sherlock` and `reddit`
each hold `None` or a list of their sub-scan's records. -/
theorem c10_bundle_shape (u mode : String) (ak ci cs : Option String) (avail : Bool)
    (shOut : Except String (List SherlockRecord))
    (rdOut : Except String (Option (List FlaggedRow))) :
    (scanUser u mode ak ci cs avail shOut rdOut).map Prod.fst =
      ["username", "sherlock", "reddit", "errors"] ∧
    lookupD (scanUser u mode ak ci cs avail shOut rdOut) "username" = some (.str u) ∧
    isStrsVal (lookupD (scanUser u mode ak ci cs avail shOut rdOut) "errors") = true ∧
    isNilOrSherlock (lookupD (scanUser u mode ak ci cs avail shOut rdOut) "sherlock") = true ∧
    isNilOrReddit (lookupD (scanUser u mode ak ci cs avail shOut rdOut) "reddit") = true := by
  by_cases h1 : mode = "sherlock" <;> by_cases h2 : mode = "both" <;>
    by_cases h3 : mode = "reddit" <;>
    cases avail <;> cases hc : credsPresent ak ci cs <;> cases shOut <;>
    rcases rdOut with m | (_ | xs) <;>
    simp_all [scanUser, scanUserTasks, eligSherlock, eligReddit, applyOutcome, pushErr,
      dictSet, getErrs, lookupD, redditRVal, Except.map, isStrsVal, isNilOrSherlock,
      isNilOrReddit]

end ModScanner

